import Mathlib

/-!
Verification of the conversation-summarization backend (`server.js`).

The development shallowly embeds the data model and the operations of the
chat relay server: the message/conversation records, the summary-extraction
helper `pickTextFromAnthropic`, the compaction step
`maybeSummarizeConversation`, the model-name normalizer `normalizeModel`,
and the `POST /api/chat/stream` handler `chatStream`.

Store reads and writes are modelled by threading the targeted conversation
record through the functions; the provider HTTP call is abstracted by a
`FetchOutcome` value (network failure, or a response with a status flag and
an optionally-parseable JSON body).  A thrown JavaScript exception is
modelled by `Except.error`.  JavaScript truthiness on strings (`""` is
falsy, as is a missing field) is modelled explicitly where the source
relies on it.
-/

/-- JavaScript `String.prototype.trim`, modelled on the character list
(drop leading and trailing whitespace).  Lean's own `String.trim` is
byte-position based and does not reduce inside the kernel, so the model
uses this structurally recursive equivalent. -/
def jsTrim (s : String) : String :=
  ⟨((s.data.dropWhile Char.isWhitespace).reverse.dropWhile
      Char.isWhitespace).reverse⟩

/-- JavaScript `String.prototype.startsWith`, modelled on the character
lists. -/
def jsStartsWith (s pre : String) : Bool :=
  pre.data.isPrefixOf s.data

/-- One stored message row: `{role, content, ts}` as selected from the
`messages` table (`select("role, content, ts")`). -/
structure Message where
  role : String
  content : String
  ts : Nat
deriving DecidableEq, Repr

/-- One conversation row: `{title, summary, summary_updated_at, created_at,
updated_at}` plus its ordered message list. -/
structure Conversation where
  title : String
  summary : String
  summaryUpdatedAt : Nat
  messages : List Message
  createdAt : Nat
  updatedAt : Nat
deriving DecidableEq, Repr

/-- A content block of a provider response body (`data.content[i]`):
a `type` tag and an optional `text` field (`none` models a missing field). -/
structure ContentBlock where
  type : String
  text : Option String
deriving DecidableEq, Repr

/-- A parsed provider response body: `data.content` may be missing. -/
structure AnthropicData where
  content : Option (List ContentBlock)
deriving DecidableEq, Repr

/-- Outcome of one `fetch` to the provider:
`netError` models a rejected `fetch` promise;
`resp ok body` models a response whose `r.ok` is `ok` and whose body
parses (`r.json()`) to `some` data or throws (`none`). -/
inductive FetchOutcome where
  | netError : FetchOutcome
  | resp (ok : Bool) (body : Option AnthropicData) : FetchOutcome
deriving DecidableEq, Repr

/-- `server.js` lines 34-40:
`data?.content?.find?.((c) => c.type === "text")?.text || data?.content?.[0]?.text || ""`.
JavaScript `||` falls through on any falsy value, so a missing `text` field
and an empty-string `text` both fall through to the next alternative. -/
def pickTextFromAnthropic (data : AnthropicData) : String :=
  let found : String :=
    (data.content.bind (fun cs =>
      (cs.find? (fun c => c.type == "text")).bind ContentBlock.text)).getD ""
  let first : String :=
    (data.content.bind (fun cs => cs.head?.bind ContentBlock.text)).getD ""
  if found != "" then found else first

/-- Canonical capable-tier model id (`server.js` line 27). -/
def MODEL_SONNET : String := "claude-sonnet-4-5"

/-- Canonical fast/cheap-tier model id (`server.js` line 28). -/
def MODEL_HAIKU : String := "claude-haiku-4-5"

/-- `server.js` lines 326-337 (`normalizeModel`): a falsy input (absent or
empty string) and any string matching neither prefix map to the capable
tier; the two recognized prefixes map to their canonical ids. -/
def normalizeModel (m : Option String) : String :=
  match m with
  | none => MODEL_SONNET
  | some s0 =>
    if s0 == "" then MODEL_SONNET
    else
      let s := jsTrim s0
      if jsStartsWith s "claude-sonnet-4-5" then MODEL_SONNET
      else if jsStartsWith s "claude-haiku-4-5" then MODEL_HAIKU
      else MODEL_SONNET

/-- The role-tagged transcript of the old slice (`server.js` line 179):
`old.map((m) => ROLE: content).join("\n")`.  It only feeds the provider
request body, which the embedding abstracts as a `FetchOutcome`. -/
def transcriptOf (old : List Message) : String :=
  String.intercalate "\n" (old.map (fun m => m.role.toUpper ++ ": " ++ m.content))

/-- The fixed summarization instruction plus the transcript
(`server.js` lines 180-185). -/
def summaryPromptOf (old : List Message) : String :=
  "Resuma a conversa abaixo em português, de forma objetiva.\n" ++
  "- Preserve fatos, decisões, preferências, nomes e números.\n" ++
  "- Use bullets curtos.\n" ++
  "- Se houver tarefas pendentes, liste em 'Pendências'.\n\n" ++
  "CONVERSA:\n" ++ transcriptOf old

/-- `server.js` lines 154-220 (`maybeSummarizeConversation`), acting on the
conversation record the id refers to.  `Except.error` models an exception
escaping the function: a rejected `fetch` or a throwing `r.json()` — note
the source calls `await r.json()` BEFORE checking `r.ok`, so an
unparseable body throws regardless of the status.  All other paths return
the (possibly compacted) conversation.  Deletion is
`delete().in("ts", oldTs)`: every row whose `ts` occurs among the old
slice's timestamps is removed. -/
def maybeSummarizeConversation (apiKey : Bool) (conv : Conversation) (now : Nat)
    (fetchResult : FetchOutcome) : Except Unit Conversation :=
  if !apiKey then .ok conv
  else
    let msgs := conv.messages
    if msgs.length < 22 then .ok conv
    else
      let lastSum := conv.summaryUpdatedAt
      if now - lastSum < 60000 then .ok conv
      else
        let keepLast := 12
        let old := msgs.take (max 0 (msgs.length - keepLast))
        if old.length < 12 then .ok conv
        else
          match fetchResult with
          | .netError => .error ()
          | .resp ok body =>
            match body with
            | none => .error ()
            | some data =>
              if !ok then .ok conv
              else
                let summary := jsTrim (pickTextFromAnthropic data)
                if summary == "" then .ok conv
                else
                  let oldTs := (msgs.take (msgs.length - keepLast)).map Message.ts
                  let msgs' := if oldTs.length > 0
                    then msgs.filter (fun m => !(oldTs.contains m.ts))
                    else msgs
                  .ok { conv with
                          summary := summary,
                          summaryUpdatedAt := now,
                          updatedAt := now,
                          messages := msgs' }

/-- The message list of a compaction outcome (`[]` when it threw). -/
def runMessages (e : Except Unit Conversation) : List Message :=
  match e with
  | .ok c => c.messages
  | .error _ => []

/-- The summary of a compaction outcome (`""` when it threw). -/
def runSummary (e : Except Unit Conversation) : String :=
  match e with
  | .ok c => c.summary
  | .error _ => ""

/-- One attachment of the request body; every field the handler probes is
optional (`none` models a missing field, `""` is the other falsy string). -/
structure Attachment where
  kind : String
  data : Option String
  media_type : Option String
  text : Option String
  name : Option String
deriving DecidableEq, Repr

/-- The JSON request body of `POST /api/chat/stream`:
`{conversationId, message, model, attachments}`. -/
structure ChatRequest where
  conversationId : Option String
  message : Option String
  model : Option String
  attachments : Option (List Attachment)
deriving DecidableEq, Repr

/-- JavaScript truthiness of an optional string: missing and `""` are falsy. -/
def optTruthy : Option String → Bool
  | some s => s != ""
  | none => false

/-- `Array.isArray(attachments) && attachments.length > 0`
(`server.js` line 239). -/
def hasAttachmentsOf (req : ChatRequest) : Bool :=
  match req.attachments with
  | some l => decide (l.length > 0)
  | none => false

/-- An outbound content block (`server.js` lines 304-318). -/
inductive Block where
  | text (t : String) : Block
  | image (mediaType : String) (data : String) : Block
  | document (data : String) : Block
deriving DecidableEq, Repr

/-- The content of an outbound message: a bare string (stored history
entries) or a block list (the freshly built user turn). -/
inductive OutContent where
  | str (s : String) : OutContent
  | blocks (bs : List Block) : OutContent
deriving DecidableEq, Repr

/-- One entry of the outbound `messages` array. -/
structure OutMsg where
  role : String
  content : OutContent
deriving DecidableEq, Repr

/-- The block an attachment contributes, if any (`server.js` lines 308-317):
an image needs truthy `data` and `media_type`, a pdf needs truthy `data`,
a text file needs truthy `text` and is wrapped in the filename banner;
anything else (including a falsy `kind`) is skipped. -/
def attBlock (a : Attachment) : Option Block :=
  if a.kind == "" then none
  else if a.kind == "image" then
    if optTruthy a.data && optTruthy a.media_type then
      some (.image (a.media_type.getD "") (a.data.getD ""))
    else none
  else if a.kind == "pdf" then
    if optTruthy a.data then some (.document (a.data.getD "")) else none
  else if a.kind == "text" then
    if optTruthy a.text then
      some (.text ("\n\n---\nARQUIVO: " ++
        (if optTruthy a.name then a.name.getD "" else "arquivo") ++ "\n" ++
        a.text.getD "" ++ "\n---\n"))
    else none
  else none

/-- The content blocks of the current user turn (`server.js` lines 304-318):
a text block for the typed message if non-empty, then one block per
qualifying attachment. -/
def buildBlocks (userText : String) (attachments : Option (List Attachment)) :
    List Block :=
  (if userText != "" then [Block.text userText] else []) ++
    (match attachments with
     | some as => as.filterMap attBlock
     | none => [])

/-- The outbound message array (`server.js` lines 298-320): the stored
history capped at the most recent `MAX_TURNS = 20` entries, each mapped to
`{role, content}`, with the freshly built user turn pushed at the end —
content blocks if any were built, the bare typed text otherwise. -/
def buildHistoryFull (msgs : List Message) (userText : String)
    (attachments : Option (List Attachment)) : List OutMsg :=
  let history := (msgs.drop (msgs.length - 20)).map
    (fun m => OutMsg.mk m.role (.str m.content))
  let blocks := buildBlocks userText attachments
  history ++
    [⟨"user", if blocks.length > 0 then .blocks blocks else .str userText⟩]

/-- How the handler terminated, per response path of `server.js`. -/
inductive ChatResponse where
  | configError : ChatResponse
  | badRequest (msg : String) : ChatResponse
  | notFound : ChatResponse
  | serverError : ChatResponse
  | errorEvent : ChatResponse
  | completed : ChatResponse
deriving DecidableEq, Repr

/-- `true` exactly on the HTTP 400 responses. -/
def ChatResponse.isClientError : ChatResponse → Bool
  | .badRequest _ => true
  | _ => false

/-- The request the handler sends to the primary model
(`server.js` lines 345-360): normalized model id, optional system prompt
(`system.trim() || undefined`), outbound message array. -/
structure OutboundRequest where
  model : String
  system : Option String
  messages : List OutMsg
deriving DecidableEq, Repr

/-- Result of one run of the handler: the terminal response, the
conversation record after all writes of the turn (`none` when the id
resolved to nothing), and the primary request if one was issued. -/
structure ChatOutcome where
  response : ChatResponse
  conv : Option Conversation
  sent : Option OutboundRequest
deriving DecidableEq, Repr

/-- `server.js` lines 223-430 (`POST /api/chat/stream`), with the provider
interactions abstracted: `compactFetch` is the summarization call's
outcome, `primaryOk` the primary call's `r.ok`, `assistantText` the
concatenation of the streamed deltas, `now` the `Date.now()` of the user
insert and `now2` the one of the assistant insert.  The order of the
checks and writes follows the source: config check, body destructuring,
conversationId check, empty-message check, lookup, user-message insert and
title update, compaction (an exception there reaches the route's `catch`
and answers HTTP 500), re-read, context assembly, primary call, assistant
insert. -/
def chatStream (apiKey : Bool) (body : Option ChatRequest)
    (convLookup : Option Conversation) (settingPrompt : String) (now : Nat)
    (compactFetch : FetchOutcome) (primaryOk : Bool) (assistantText : String)
    (now2 : Nat) : ChatOutcome :=
  if !apiKey then ⟨.configError, convLookup, none⟩
  else
    let req := body.getD ⟨none, none, none, none⟩
    let userText := jsTrim (req.message.getD "")
    if !(optTruthy req.conversationId) then
      ⟨.badRequest "conversationId obrigatório.", convLookup, none⟩
    else if userText == "" && !(hasAttachmentsOf req) then
      ⟨.badRequest "Mensagem vazia.", convLookup, none⟩
    else
      match convLookup with
      | none => ⟨.notFound, none, none⟩
      | some conv =>
        let userMsg : Message :=
          ⟨"user", if userText != "" then userText else "[Anexo enviado]", now⟩
        let newTitle :=
          if conv.title == "" || conv.title == "Nova conversa" then
            (if userText != "" then userText else "Nova conversa").take 48
          else conv.title
        let conv1 : Conversation :=
          { conv with
              messages := conv.messages ++ [userMsg],
              title := newTitle,
              updatedAt := now }
        match maybeSummarizeConversation apiKey conv1 now compactFetch with
        | .error _ => ⟨.serverError, some conv1, none⟩
        | .ok conv2 =>
          let msgs := conv2.messages
          let system :=
            (if conv2.summary != "" then
              "Contexto resumido desta conversa:\n" ++ conv2.summary ++ "\n\n"
            else "") ++ settingPrompt
          let historyFull := buildHistoryFull msgs userText req.attachments
          let chosenModel := normalizeModel req.model
          let sysOpt := if jsTrim system == "" then none else some (jsTrim system)
          let ob : OutboundRequest := ⟨chosenModel, sysOpt, historyFull⟩
          if !primaryOk then ⟨.errorEvent, some conv2, some ob⟩
          else
            let conv3 : Conversation :=
              { conv2 with
                  messages := conv2.messages ++ [⟨"assistant", assistantText, now2⟩],
                  updatedAt := now2 }
            ⟨.completed, some conv3, some ob⟩

/-! ### Concrete fixtures used by the witnesses and counterexamples -/

/-- `n` alternating messages with distinct ascending timestamps `0,…,n-1`. -/
def mkMsgs (n : Nat) : List Message :=
  (List.range n).map (fun i =>
    ⟨if i % 2 == 0 then "user" else "assistant", "m" ++ toString i, i⟩)

/-- A successful provider body whose first block is a text block. -/
def goodData : AnthropicData :=
  ⟨some [⟨"text", some "Resumo da conversa."⟩]⟩

/-- A successful summarization fetch: status ok, parseable body,
non-empty extracted text. -/
def fGood : FetchOutcome := .resp true (some goodData)

/-! ### Helper lemmas about the compaction step -/

/-- With strictly ascending timestamps, deleting every message whose
timestamp occurs among the first `k` messages' timestamps removes exactly
that prefix: the `delete().in("ts", oldTs)` of `server.js` equals a
`drop`. -/
theorem filter_ts_eq_drop (msgs : List Message) (k : Nat)
    (h : msgs.Pairwise (fun a b => a.ts < b.ts)) :
    msgs.filter (fun m => !(((msgs.take k).map Message.ts).contains m.ts)) =
      msgs.drop k := by
  have hsplit := List.take_append_drop k msgs
  have hpw : (msgs.take k ++ msgs.drop k).Pairwise (fun a b => a.ts < b.ts) := by
    rw [hsplit]; exact h
  have hcross := (List.pairwise_append.mp hpw).2.2
  have h1 : (msgs.take k).filter
      (fun m => !(((msgs.take k).map Message.ts).contains m.ts)) = [] := by
    rw [List.filter_eq_nil_iff]
    intro a ha hp
    have hmem : a.ts ∈ (msgs.take k).map Message.ts :=
      List.mem_map.mpr ⟨a, ha, rfl⟩
    rw [List.map_take] at hmem
    simp [List.contains, List.elem_eq_mem, hmem] at hp
  have h2 : (msgs.drop k).filter
      (fun m => !(((msgs.take k).map Message.ts).contains m.ts)) = msgs.drop k := by
    rw [List.filter_eq_self]
    intro b hb
    have hnot : b.ts ∉ (msgs.take k).map Message.ts := by
      intro hmem
      rcases List.mem_map.mp hmem with ⟨a, ha, hts⟩
      exact absurd hts (Nat.ne_of_lt (hcross a ha b hb))
    rw [List.map_take] at hnot
    simp [List.contains, List.elem_eq_mem, hnot]
  calc msgs.filter (fun m => !(((msgs.take k).map Message.ts).contains m.ts))
      = (msgs.take k ++ msgs.drop k).filter
          (fun m => !(((msgs.take k).map Message.ts).contains m.ts)) := by
        rw [hsplit]
    _ = msgs.drop k := by rw [List.filter_append, h1, h2, List.nil_append]

/-- Equation for the success path of `maybeSummarizeConversation`: all
trigger conditions hold, the provider answers ok with a parseable body,
and the extracted trimmed text is non-empty. -/
theorem maybeSummarize_success (conv : Conversation) (now : Nat)
    (data : AnthropicData)
    (h22 : ¬ (conv.messages.length < 22))
    (hcool : ¬ (now - conv.summaryUpdatedAt < 60000))
    (hold : ¬ ((conv.messages.take (max 0 (conv.messages.length - 12))).length < 12))
    (hsum : jsTrim (pickTextFromAnthropic data) ≠ "") :
    maybeSummarizeConversation true conv now (.resp true (some data)) =
      .ok { conv with
              summary := jsTrim (pickTextFromAnthropic data),
              summaryUpdatedAt := now,
              updatedAt := now,
              messages := conv.messages.filter
                (fun m => !(((conv.messages.take (conv.messages.length - 12)).map
                    Message.ts).contains m.ts)) } := by
  have hlen : 0 < ((conv.messages.take (conv.messages.length - 12)).map
      Message.ts).length := by
    simp only [List.length_map, List.length_take]
    omega
  have hbeq : (jsTrim (pickTextFromAnthropic data) == "") = false :=
    beq_eq_false_iff_ne.mpr hsum
  simp only [maybeSummarizeConversation, Bool.not_true, Bool.false_eq_true,
    if_false, if_neg h22, if_neg hcool, if_neg hold, hbeq, if_pos hlen]

/-- Every `.ok` outcome of the compaction step is either the unchanged
conversation or the compacted record of the success path (in which case
the threshold held and the fetch was an ok, parseable response). -/
theorem maybeSummarize_cases (apiKey : Bool) (conv c' : Conversation)
    (now : Nat) (f : FetchOutcome)
    (hok : maybeSummarizeConversation apiKey conv now f = .ok c') :
    c' = conv ∨
      (∃ data, f = .resp true (some data) ∧
        jsTrim (pickTextFromAnthropic data) ≠ "" ∧
        ¬ (conv.messages.length < 22) ∧
        c' = { conv with
                summary := jsTrim (pickTextFromAnthropic data),
                summaryUpdatedAt := now,
                updatedAt := now,
                messages := conv.messages.filter
                  (fun m => !(((conv.messages.take (conv.messages.length - 12)).map
                      Message.ts).contains m.ts)) }) := by
  simp only [maybeSummarizeConversation] at hok
  split at hok
  · exact Or.inl (Except.ok.inj hok).symm
  split at hok
  · exact Or.inl (Except.ok.inj hok).symm
  split at hok
  · exact Or.inl (Except.ok.inj hok).symm
  split at hok
  · exact Or.inl (Except.ok.inj hok).symm
  rename_i h22 hcool hold
  split at hok
  · exact Except.noConfusion hok
  rename_i ok body
  split at hok
  · exact Except.noConfusion hok
  rename_i data
  split at hok
  · exact Or.inl (Except.ok.inj hok).symm
  rename_i hnotok
  have hoktrue : ok = true := by
    cases ok with
    | false => exact absurd rfl hnotok
    | true => rfl
  subst hoktrue
  split at hok
  · exact Or.inl (Except.ok.inj hok).symm
  rename_i hsumne
  split at hok
  · refine Or.inr ⟨data, rfl, ?_, h22, (Except.ok.inj hok).symm⟩
    intro hcon
    exact hsumne (by simp [hcon])
  · rename_i hlen
    exact absurd (by simp only [List.length_map, List.length_take]; omega) hlen

/-- Any compaction run inside the cooldown window returns the conversation
unchanged (the `Date.now() - lastSum < 60_000` guard, or an even earlier
guard, fires before any effectful step). -/
theorem maybeSummarize_noop_in_cooldown (apiKey : Bool) (conv : Conversation)
    (now : Nat) (f : FetchOutcome)
    (h : now - conv.summaryUpdatedAt < 60000) :
    maybeSummarizeConversation apiKey conv now f = .ok conv := by
  cases apiKey with
  | false => rfl
  | true =>
    simp only [maybeSummarizeConversation, Bool.not_true, Bool.false_eq_true,
      if_false]
    split
    all_goals first
      | rfl
      | exact absurd h (by assumption)

/-- A compaction run that changed the conversation stamped
`summaryUpdatedAt` with the current time. -/
theorem maybeSummarize_stamp_of_work (apiKey : Bool) (conv c' : Conversation)
    (now : Nat) (f : FetchOutcome)
    (hok : maybeSummarizeConversation apiKey conv now f = .ok c')
    (hne : c' ≠ conv) : c'.summaryUpdatedAt = now := by
  rcases maybeSummarize_cases apiKey conv c' now f hok with h | ⟨_, _, _, _, hrec⟩
  · exact absurd h hne
  · rw [hrec]

/-! ### Claims about the compaction step -/

/-- A 22-message conversation whose cooldown has long elapsed. -/
def conv22 : Conversation := ⟨"Conversa", "", 0, mkMsgs 22, 0, 0⟩

/-- A 24-message conversation with strictly ascending timestamps. -/
def conv24 : Conversation := ⟨"T", "", 0, mkMsgs 24, 0, 0⟩

/-- The record `conv24` compacts to at time 100000 under `fGood`. -/
def conv24compacted : Conversation :=
  ⟨"T", "Resumo da conversa.", 100000, (mkMsgs 24).drop 12, 0, 100000⟩

/-- C1 counterexample: a conversation holding exactly 22 messages, with
`keepLast = 12` and `minMessagesForSummary = 22`, cooldown elapsed and a
succeeding provider, is left completely unchanged — the old slice has only
10 messages, below the minimum batch of 12 (`if (old.length < 12) return`),
so compaction deletes nothing and the summary stays empty, contradicting
the claimed deletion of the first 10. -/
theorem compaction_at_22_no_work :
    maybeSummarizeConversation true conv22 100000 fGood = .ok conv22 ∧
      conv22.messages.length = 22 ∧ conv22.summary = "" :=
  ⟨by rfl, by decide, by decide⟩

/-- C1 (amended): at 22 messages compaction performs no work; 24 messages
is the least count at which it does.  For a conversation holding exactly
24 pairwise-distinct-timestamp messages, cooldown elapsed and provider
succeeding with non-empty text, the first 12 messages are deleted, the
summary is set non-empty, and exactly 12 messages remain. -/
theorem compaction_at_24_deletes_first_12 (conv : Conversation) (now : Nat)
    (data : AnthropicData)
    (hlen : conv.messages.length = 24)
    (hts : conv.messages.Pairwise (fun a b => a.ts < b.ts))
    (hcool : ¬ (now - conv.summaryUpdatedAt < 60000))
    (hsum : jsTrim (pickTextFromAnthropic data) ≠ "") :
    runMessages (maybeSummarizeConversation true conv now (.resp true (some data))) =
        conv.messages.drop 12 ∧
      (runMessages (maybeSummarizeConversation true conv now
          (.resp true (some data)))).length = 12 ∧
      runSummary (maybeSummarizeConversation true conv now
          (.resp true (some data))) ≠ "" := by
  have h22 : ¬ (conv.messages.length < 22) := by omega
  have hold : ¬ ((conv.messages.take
      (max 0 (conv.messages.length - 12))).length < 12) := by
    simp only [List.length_take]
    omega
  rw [maybeSummarize_success conv now data h22 hcool hold hsum]
  have hfilter := filter_ts_eq_drop conv.messages (conv.messages.length - 12) hts
  refine ⟨?_, ?_, ?_⟩
  · simp only [runMessages]
    rw [hfilter, hlen]
  · simp only [runMessages]
    rw [hfilter]
    simp only [List.length_drop]
    omega
  · simpa [runSummary] using hsum

/-- Witness for the amended C1 theorem at a concrete conversation. -/
theorem compaction_at_24_deletes_first_12_witness :
    conv24.messages.length = 24 ∧
    conv24.messages.Pairwise (fun a b => a.ts < b.ts) ∧
    ¬ (100000 - conv24.summaryUpdatedAt < 60000) ∧
    jsTrim (pickTextFromAnthropic goodData) ≠ "" ∧
    (runMessages (maybeSummarizeConversation true conv24 100000
          (.resp true (some goodData))) = conv24.messages.drop 12 ∧
      (runMessages (maybeSummarizeConversation true conv24 100000
          (.resp true (some goodData)))).length = 12 ∧
      runSummary (maybeSummarizeConversation true conv24 100000
          (.resp true (some goodData))) ≠ "") :=
  ⟨by decide, by decide, by decide, by decide,
    compaction_at_24_deletes_first_12 conv24 100000 goodData (by decide)
      (by decide) (by decide) (by decide)⟩

/-- C4: for any conversation with fewer than 22 stored messages, the
compaction operation returns the conversation untouched — no message
deletion, no summary write, no exception. -/
theorem compaction_noop_below_threshold (apiKey : Bool) (conv : Conversation)
    (now : Nat) (f : FetchOutcome) (h : conv.messages.length < 22) :
    maybeSummarizeConversation apiKey conv now f = .ok conv := by
  cases apiKey with
  | false => rfl
  | true =>
    simp only [maybeSummarizeConversation, Bool.not_true, Bool.false_eq_true,
      if_false, if_pos h]

/-- Witness for C4 at a 5-message conversation. -/
theorem compaction_noop_below_threshold_witness :
    (⟨"T", "", 0, mkMsgs 5, 0, 0⟩ : Conversation).messages.length < 22 ∧
      maybeSummarizeConversation true ⟨"T", "", 0, mkMsgs 5, 0, 0⟩ 100000 fGood =
        .ok ⟨"T", "", 0, mkMsgs 5, 0, 0⟩ :=
  ⟨by decide,
    compaction_noop_below_threshold true ⟨"T", "", 0, mkMsgs 5, 0, 0⟩ 100000 fGood
      (by decide)⟩

/-- 24 ascending messages in which `recent[0]` shares timestamp 11 with
`old[11]` (two requests can land in the same millisecond). -/
def msgsDupTs : List Message :=
  (mkMsgs 24).map (fun m => if m.ts == 12 then { m with ts := 11 } else m)

/-- Conversation over `msgsDupTs`. -/
def convDupTs : Conversation := ⟨"T", "", 0, msgsDupTs, 0, 0⟩

/-- C3 counterexample: compaction performs work (the summary changes) but
`delete().in("ts", oldTs)` also removes the retention-window message that
shares timestamp 11 with an old message: only 11 messages remain and the
most recent 12 are not intact. -/
theorem retention_window_violated :
    runSummary (maybeSummarizeConversation true convDupTs 100000 fGood) ≠
        convDupTs.summary ∧
      (runMessages (maybeSummarizeConversation true convDupTs 100000 fGood)).length
          = 11 ∧
      ((convDupTs.messages.drop (convDupTs.messages.length - 12)).isSuffixOf
        (runMessages (maybeSummarizeConversation true convDupTs 100000 fGood)))
          = false :=
  ⟨by decide, by decide, by decide⟩

/-- C3 (amended): provided the conversation's message timestamps are
pairwise distinct (strictly ascending), every non-throwing compaction run
either leaves the message list unchanged or deletes exactly the contiguous
prefix before the most recent 12 messages — the retention window survives
byte-identical. -/
theorem compaction_deletes_only_prefix (apiKey : Bool) (conv c' : Conversation)
    (now : Nat) (f : FetchOutcome)
    (hts : conv.messages.Pairwise (fun a b => a.ts < b.ts))
    (hok : maybeSummarizeConversation apiKey conv now f = .ok c') :
    c'.messages = conv.messages ∨
      c'.messages = conv.messages.drop (conv.messages.length - 12) := by
  rcases maybeSummarize_cases apiKey conv c' now f hok with h | ⟨data, _, _, _, hrec⟩
  · exact Or.inl (by rw [h])
  · right
    rw [hrec]
    exact filter_ts_eq_drop conv.messages (conv.messages.length - 12) hts

/-- Witness for the amended C3 theorem at a concrete compaction that
performs work. -/
theorem compaction_deletes_only_prefix_witness :
    conv24.messages.Pairwise (fun a b => a.ts < b.ts) ∧
    maybeSummarizeConversation true conv24 100000 fGood = .ok conv24compacted ∧
    (conv24compacted.messages = conv24.messages ∨
      conv24compacted.messages =
        conv24.messages.drop (conv24.messages.length - 12)) :=
  ⟨by decide, by rfl,
    compaction_deletes_only_prefix true conv24 conv24compacted 100000 fGood
      (by decide) (by rfl)⟩

/-- 24 ascending messages with timestamps 0–11, 11, 11, 14–23: the two
retention-window messages at positions 12 and 13 share timestamp 11 with
`old[11]`. -/
def msgsDupTs2 : List Message :=
  (mkMsgs 24).map (fun m =>
    if m.ts == 12 || m.ts == 13 then { m with ts := 11 } else m)

/-- Conversation over `msgsDupTs2`. -/
def convDupTs2 : Conversation := ⟨"Conversa B", "", 0, msgsDupTs2, 0, 0⟩

/-- C5 counterexample: all the claim's hypotheses hold (N ≥ 22, cooldown
elapsed, old slice ≥ 12, provider success with non-empty text), yet after
compaction 10 messages remain, not `min(N, keepLast) = 12`: the
timestamp-membership delete also removed two retention-window messages. -/
theorem compacted_count_not_min :
    ¬ (convDupTs2.messages.length < 22) ∧
    ¬ (100000 - convDupTs2.summaryUpdatedAt < 60000) ∧
    ¬ ((convDupTs2.messages.take
        (max 0 (convDupTs2.messages.length - 12))).length < 12) ∧
    jsTrim (pickTextFromAnthropic goodData) ≠ "" ∧
    (runMessages (maybeSummarizeConversation true convDupTs2 100000 fGood)).length
        ≠ min convDupTs2.messages.length 12 :=
  ⟨by decide, by decide, by decide, by decide, by decide⟩

/-- C5 (amended): provided the conversation's message timestamps are
pairwise distinct, for N ≥ 22 with cooldown elapsed, old slice ≥ 12 and a
provider success with non-empty text, the stored message count afterwards
equals `min(N, keepLast)` and the summary is non-empty. -/
theorem compaction_success_count_min (conv : Conversation) (now : Nat)
    (data : AnthropicData)
    (hts : conv.messages.Pairwise (fun a b => a.ts < b.ts))
    (h22 : ¬ (conv.messages.length < 22))
    (hcool : ¬ (now - conv.summaryUpdatedAt < 60000))
    (hold : ¬ ((conv.messages.take
        (max 0 (conv.messages.length - 12))).length < 12))
    (hsum : jsTrim (pickTextFromAnthropic data) ≠ "") :
    (runMessages (maybeSummarizeConversation true conv now
          (.resp true (some data)))).length = min conv.messages.length 12 ∧
      runSummary (maybeSummarizeConversation true conv now
          (.resp true (some data))) ≠ "" := by
  rw [maybeSummarize_success conv now data h22 hcool hold hsum]
  constructor
  · simp only [runMessages]
    rw [filter_ts_eq_drop conv.messages (conv.messages.length - 12) hts]
    simp only [List.length_drop]
    omega
  · simpa [runSummary] using hsum

/-- Witness for the amended C5 theorem. -/
theorem compaction_success_count_min_witness :
    conv24.messages.Pairwise (fun a b => a.ts < b.ts) ∧
    ¬ (conv24.messages.length < 22) ∧
    ¬ (100000 - conv24.summaryUpdatedAt < 60000) ∧
    ¬ ((conv24.messages.take (max 0 (conv24.messages.length - 12))).length < 12) ∧
    jsTrim (pickTextFromAnthropic goodData) ≠ "" ∧
    ((runMessages (maybeSummarizeConversation true conv24 100000
          (.resp true (some goodData)))).length = min conv24.messages.length 12 ∧
      runSummary (maybeSummarizeConversation true conv24 100000
          (.resp true (some goodData))) ≠ "") :=
  ⟨by decide, by decide, by decide, by decide, by decide,
    compaction_success_count_min conv24 100000 goodData (by decide) (by decide)
      (by decide) (by decide) (by decide)⟩

/-- C6: if a first compaction run performed work, any second run started
within the 60-second cooldown window after that update — on any state that
inherited the first run's `summaryUpdatedAt`, regardless of messages
appended in between — is a no-op returning its input unchanged. -/
theorem compaction_second_run_noop (apiKey1 apiKey2 : Bool)
    (conv c1 conv2 : Conversation) (now1 now2 : Nat) (f1 f2 : FetchOutcome)
    (h1 : maybeSummarizeConversation apiKey1 conv now1 f1 = .ok c1)
    (hwork : c1 ≠ conv)
    (hinherit : conv2.summaryUpdatedAt = c1.summaryUpdatedAt)
    (hcool : now2 - now1 < 60000) :
    maybeSummarizeConversation apiKey2 conv2 now2 f2 = .ok conv2 := by
  have hstamp := maybeSummarize_stamp_of_work apiKey1 conv c1 now1 f1 h1 hwork
  exact maybeSummarize_noop_in_cooldown apiKey2 conv2 now2 f2
    (by rw [hinherit, hstamp]; exact hcool)

/-- The state after `conv24` compacted and one further message arrived. -/
def conv24after : Conversation :=
  { conv24compacted with
      messages := conv24compacted.messages ++ [⟨"user", "nova", 100050⟩],
      updatedAt := 100050 }

/-- Witness for C6: the first run at 100000 performs work; a second run at
100060 (60 ms later, inside the cooldown) changes nothing even though a
message arrived in between. -/
theorem compaction_second_run_noop_witness :
    maybeSummarizeConversation true conv24 100000 fGood = .ok conv24compacted ∧
    conv24compacted ≠ conv24 ∧
    conv24after.summaryUpdatedAt = conv24compacted.summaryUpdatedAt ∧
    100060 - 100000 < 60000 ∧
    maybeSummarizeConversation true conv24after 100060 .netError =
      .ok conv24after :=
  ⟨by rfl, by decide, by decide, by decide,
    compaction_second_run_noop true true conv24 conv24compacted conv24after
      100000 100060 fGood .netError (by rfl) (by decide) (by decide) (by decide)⟩

/-! ### Claims about model-name normalization and summary extraction -/

/-- An incoming model identifier the normalizer does not recognize:
absent, empty, or (after trimming) matching neither canonical model
identifier as a string prefix. -/
def unrecognizedModel : Option String → Bool
  | none => true
  | some s => s == "" ||
      (!(jsStartsWith (jsTrim s) "claude-sonnet-4-5") &&
       !(jsStartsWith (jsTrim s) "claude-haiku-4-5"))

/-- C8: every incoming model identifier normalizes to exactly one of the
two canonical identifiers, and every unrecognized identifier (absent,
empty, or matching neither prefix) normalizes to the capable tier
`MODEL_SONNET`. -/
theorem normalizeModel_two_tiers (m : Option String) :
    (normalizeModel m = MODEL_SONNET ∨ normalizeModel m = MODEL_HAIKU) ∧
      (unrecognizedModel m = true → normalizeModel m = MODEL_SONNET) := by
  cases m with
  | none => exact ⟨Or.inl rfl, fun _ => rfl⟩
  | some s =>
    by_cases h0 : (s == "") = true
    · exact ⟨Or.inl (by simp [normalizeModel, h0]),
        fun _ => by simp [normalizeModel, h0]⟩
    · by_cases h1 : jsStartsWith (jsTrim s) "claude-sonnet-4-5" = true
      · refine ⟨Or.inl (by simp [normalizeModel, h0, h1]), fun hu => ?_⟩
        simp [unrecognizedModel, h0, h1] at hu
      · by_cases h2 : jsStartsWith (jsTrim s) "claude-haiku-4-5" = true
        · refine ⟨Or.inr (by simp [normalizeModel, h0, h1, h2]), fun hu => ?_⟩
          simp [unrecognizedModel, h0, h1, h2] at hu
        · exact ⟨Or.inl (by simp [normalizeModel, h0, h1, h2]),
            fun _ => by simp [normalizeModel, h0, h1, h2]⟩

/-- Witness for C8 at the unrecognized identifier "gpt-4". -/
theorem normalizeModel_two_tiers_witness :
    unrecognizedModel (some "gpt-4") = true ∧
      normalizeModel (some "gpt-4") = MODEL_SONNET :=
  ⟨by decide, (normalizeModel_two_tiers (some "gpt-4")).2 (by decide)⟩

/-- The extraction rule exactly as the claim words it: return the text of
the first content block of type "text"; only if NO such block exists, fall
back to the first block's text; if that is also absent, the empty
string. -/
def pickTextClaimed (data : AnthropicData) : String :=
  match data.content with
  | none => ""
  | some cs =>
    match cs.find? (fun c => c.type == "text") with
    | some c => c.text.getD ""
    | none =>
      match cs.head? with
      | some c => c.text.getD ""
      | none => ""

/-- A response whose first block is a non-text block with text "X" and
whose first type-"text" block carries the empty string. -/
def dataFalsyText : AnthropicData :=
  ⟨some [⟨"tool_use", some "X"⟩, ⟨"text", some ""⟩]⟩

/-- C9 counterexample: the code's JavaScript `||` chain also falls back
when the first type-"text" block exists but its text is falsy (empty or
missing): here it returns the first block's "X", while the claimed rule
returns the found block's empty text. -/
theorem pickText_differs_from_claimed :
    pickTextFromAnthropic dataFalsyText = "X" ∧
      pickTextClaimed dataFalsyText = "" ∧
      pickTextFromAnthropic dataFalsyText ≠ pickTextClaimed dataFalsyText :=
  ⟨by decide, by decide, by decide⟩

/-- The fallback of the amended extraction rule: the first block's text,
`""` when the list is empty or the field missing. -/
def firstBlockText (cs : List ContentBlock) : String :=
  match cs.head? with
  | some c => c.text.getD ""
  | none => ""

/-- The extraction rule as amended: the text of the first type-"text"
block provided it is present and non-empty; otherwise the first block's
text (possibly empty); missing pieces give the empty string, treated as
failure by the caller. -/
def pickTextAmended (data : AnthropicData) : String :=
  match data.content with
  | none => ""
  | some cs =>
    match cs.find? (fun c => c.type == "text") with
    | some c =>
      match c.text with
      | some t => if t = "" then firstBlockText cs else t
      | none => firstBlockText cs
    | none => firstBlockText cs

/-- C9 (amended): on every provider response the code's extraction equals
the amended rule — the fallback also applies when the found text block's
text is empty or missing. -/
theorem pickText_eq_amended (data : AnthropicData) :
    pickTextFromAnthropic data = pickTextAmended data := by
  rcases data with ⟨_ | cs⟩
  · rfl
  · have hfb : (cs.head?.bind ContentBlock.text).getD "" = firstBlockText cs := by
      cases hh : cs.head? with
      | none => simp [firstBlockText, hh]
      | some c =>
        cases ht : c.text with
        | none => simp [firstBlockText, hh, ht]
        | some t => simp [firstBlockText, hh, ht]
    simp only [pickTextFromAnthropic, pickTextAmended]
    cases hf : cs.find? (fun c => c.type == "text") with
    | none => simp [hf, hfb]
    | some c =>
      cases ht : c.text with
      | none => simp [hf, ht, hfb]
      | some t =>
        by_cases hte : t = ""
        · simp [hf, ht, hte, hfb]
        · simp [hf, ht, hte]

/-! ### Claims about the chat-stream handler -/

/-- C7: a chat request whose trimmed message text is empty and whose
attachments are absent or empty is rejected with an HTTP 400 client error
before any persistence write: the conversation state is unchanged and no
provider request is issued.  (Both 400 paths qualify: a falsy
`conversationId` is rejected first, an empty message right after, and the
store lookup and message insert only happen later.) -/
theorem empty_message_rejected_before_write (body : Option ChatRequest)
    (convLookup : Option Conversation) (settingPrompt : String) (now : Nat)
    (f : FetchOutcome) (primaryOk : Bool) (assistantText : String) (now2 : Nat)
    (hempty : jsTrim ((body.getD ⟨none, none, none, none⟩).message.getD "") = "")
    (hatt : hasAttachmentsOf (body.getD ⟨none, none, none, none⟩) = false) :
    (chatStream true body convLookup settingPrompt now f primaryOk assistantText
        now2).response.isClientError = true ∧
      (chatStream true body convLookup settingPrompt now f primaryOk
        assistantText now2).conv = convLookup ∧
      (chatStream true body convLookup settingPrompt now f primaryOk
        assistantText now2).sent = none := by
  by_cases hc : optTruthy (body.getD ⟨none, none, none, none⟩).conversationId = true
  · simp [chatStream, hc, hempty, hatt, ChatResponse.isClientError]
  · simp [chatStream, hc, ChatResponse.isClientError]

/-- Witness for C7 at a whitespace-only message with no attachments. -/
theorem empty_message_rejected_before_write_witness :
    jsTrim (((some (⟨some "c", some "   ", none, none⟩ : ChatRequest)).getD
        ⟨none, none, none, none⟩).message.getD "") = "" ∧
    hasAttachmentsOf ((some (⟨some "c", some "   ", none, none⟩ : ChatRequest)).getD
        ⟨none, none, none, none⟩) = false ∧
    ((chatStream true (some ⟨some "c", some "   ", none, none⟩) (some conv22) ""
        5 fGood true "r" 6).response.isClientError = true ∧
      (chatStream true (some ⟨some "c", some "   ", none, none⟩) (some conv22) ""
        5 fGood true "r" 6).conv = some conv22 ∧
      (chatStream true (some ⟨some "c", some "   ", none, none⟩) (some conv22) ""
        5 fGood true "r" 6).sent = none) :=
  ⟨by decide, by decide,
    empty_message_rejected_before_write (some ⟨some "c", some "   ", none, none⟩)
      (some conv22) "" 5 fGood true "r" 6 (by decide) (by decide)⟩

/-- A 23-message conversation: one more user turn brings it to the
compaction trigger. -/
def conv23 : Conversation := ⟨"T", "", 0, mkMsgs 23, 0, 0⟩

/-- A well-formed chat request with the user text "oi". -/
def reqOi : ChatRequest := ⟨some "c", some "oi", none, none⟩

/-- C2 (code bug): `server.js` awaits `r.json()` before checking `r.ok`
and the route body does not guard `await maybeSummarizeConversation(...)`,
so when the summarization response body fails to parse as JSON (the
claim's "unparseable response" case) the rejection escapes to the route's
`catch`, which answers HTTP 500: the user-facing chat request FAILS and no
primary model request is issued — contradicting "failure must never block
or fail the enclosing user-facing request".  Third conjunct: with a
parseable provider-error body (`r.ok` false) instead, the same request
completes, confirming the handled-error path. -/
theorem compaction_parse_failure_fails_request :
    (chatStream true (some reqOi) (some conv23) "" 1000000 (.resp true none)
        true "resposta" 1000001).response = .serverError ∧
      (chatStream true (some reqOi) (some conv23) "" 1000000 (.resp true none)
        true "resposta" 1000001).sent = none ∧
      (chatStream true (some reqOi) (some conv23) "" 1000000
        (.resp false (some ⟨none⟩)) true "resposta" 1000001).response =
          .completed :=
  ⟨by decide, by decide, by decide⟩

/-- Compaction never removes a final message carrying a strictly larger
timestamp than everything before it: the old slice lies before it and the
timestamp-membership delete cannot match it. -/
theorem maybeSummarize_keeps_last (apiKey : Bool) (conv c' : Conversation)
    (pre2 : List Message) (x : Message) (now : Nat) (f : FetchOutcome)
    (hmsgs : conv.messages = pre2 ++ [x])
    (hts : ∀ m ∈ pre2, m.ts < x.ts)
    (hok : maybeSummarizeConversation apiKey conv now f = .ok c') :
    ∃ tail, c'.messages = tail ++ [x] := by
  rcases maybeSummarize_cases apiKey conv c' now f hok with h | ⟨data, _, _, _, hrec⟩
  · exact ⟨pre2, by rw [h, hmsgs]⟩
  · set k := conv.messages.length - 12 with hk
    have hlen1 : conv.messages.length = pre2.length + 1 := by rw [hmsgs]; simp
    have hklen : k ≤ pre2.length := by omega
    have hmsgs' : c'.messages = (pre2 ++ [x]).filter
        (fun m => !((((pre2 ++ [x]).take k).map Message.ts).contains m.ts)) := by
      rw [hrec, hmsgs]
    have hxfil : [x].filter
        (fun m => !((((pre2 ++ [x]).take k).map Message.ts).contains m.ts)) = [x] := by
      have hmaplen : k ≤ (pre2.map Message.ts).length := by
        simp only [List.length_map]
        exact hklen
      have htk2 : (pre2.map Message.ts ++ [x.ts]).take k =
          (pre2.map Message.ts).take k :=
        List.take_append_of_le_length hmaplen
      have hnot2 : x.ts ∉ (pre2.map Message.ts ++ [x.ts]).take k := by
        rw [htk2]
        intro hmem
        rcases List.mem_map.mp (List.mem_of_mem_take hmem) with ⟨a, ha, hats⟩
        exact absurd hats (Nat.ne_of_lt (hts a ha))
      simp [List.contains, List.elem_eq_mem, hnot2]
    exact ⟨pre2.filter
        (fun m => !((((pre2 ++ [x]).take k).map Message.ts).contains m.ts)),
      by rw [hmsgs', List.filter_append, hxfil]⟩

/-- When the stored history ends in the freshly appended user turn, the
outbound array ends in the fresh content-block entry, preceded by the
stored copy of the very same turn: the user text goes out twice. -/
theorem buildHistoryFull_duplicates (pre2 : List Message) (x : Message)
    (userText : String) (atts : Option (List Attachment))
    (hrole : x.role = "user") (hcontent : x.content = userText)
    (huser : userText ≠ "") :
    2 ≤ (buildHistoryFull (pre2 ++ [x]) userText atts).length ∧
    (buildHistoryFull (pre2 ++ [x]) userText atts)[
        (buildHistoryFull (pre2 ++ [x]) userText atts).length - 1]? =
      some ⟨"user", .blocks (buildBlocks userText atts)⟩ ∧
    (buildHistoryFull (pre2 ++ [x]) userText atts)[
        (buildHistoryFull (pre2 ++ [x]) userText atts).length - 2]? =
      some ⟨"user", .str userText⟩ ∧
    (buildBlocks userText atts).head? = some (.text userText) := by
  have hbeq : (userText == "") = false := beq_eq_false_iff_ne.mpr huser
  obtain ⟨rest, hb⟩ : ∃ rest,
      buildBlocks userText atts = Block.text userText :: rest := by
    refine ⟨(match atts with | some as => as.filterMap attBlock | none => []), ?_⟩
    simp [buildBlocks, bne, hbeq]
  have hpos : 0 < (buildBlocks userText atts).length := by rw [hb]; simp
  have hklen : (pre2 ++ [x]).length - 20 ≤ pre2.length := by
    simp only [List.length_append, List.length_cons, List.length_nil]
    omega
  have hdrop : (pre2 ++ [x]).drop ((pre2 ++ [x]).length - 20) =
      pre2.drop ((pre2 ++ [x]).length - 20) ++ [x] :=
    List.drop_append_of_le_length hklen
  have hfull : buildHistoryFull (pre2 ++ [x]) userText atts =
      ((pre2.drop ((pre2 ++ [x]).length - 20)).map
          (fun m => OutMsg.mk m.role (.str m.content)) ++
        [⟨"user", .str userText⟩]) ++
        [⟨"user", .blocks (buildBlocks userText atts)⟩] := by
    simp only [buildHistoryFull]
    rw [hdrop, List.map_append, if_pos hpos]
    simp [hrole, hcontent, List.append_assoc]
  rw [hfull]
  set A := (pre2.drop ((pre2 ++ [x]).length - 20)).map
    (fun m => OutMsg.mk m.role (.str m.content)) with hA
  refine ⟨?_, ?_, ?_, ?_⟩
  · simp
  · have hidx : ((A ++ [(⟨"user", .str userText⟩ : OutMsg)]) ++
        [(⟨"user", .blocks (buildBlocks userText atts)⟩ : OutMsg)]).length - 1 =
        (A ++ [(⟨"user", .str userText⟩ : OutMsg)]).length := by
      simp
    rw [hidx, List.getElem?_concat_length]
  · have hidx : ((A ++ [(⟨"user", .str userText⟩ : OutMsg)]) ++
        [(⟨"user", .blocks (buildBlocks userText atts)⟩ : OutMsg)]).length - 2 =
        A.length := by
      simp
    rw [hidx,
      List.getElem?_append_left
        (by simp : A.length < (A ++ [(⟨"user", .str userText⟩ : OutMsg)]).length),
      List.getElem?_concat_length]
  · rw [hb]
    rfl

/-- C10: for every chat request with non-empty trimmed user text and a
truthy conversation id on an existing conversation whose stored messages
all predate `now`, whenever the handler issues a primary request, its
outbound message array contains the current user turn twice: the stored
copy (appended before the `MAX_TURNS` slice is taken) as the
second-to-last entry, and the freshly built content-block entry (whose
first block is the same text) as the last entry. -/
theorem chat_sends_user_turn_twice (body : ChatRequest) (conv : Conversation)
    (settingPrompt : String) (now : Nat) (f : FetchOutcome) (primaryOk : Bool)
    (assistantText : String) (now2 : Nat)
    (hid : optTruthy body.conversationId = true)
    (huser : jsTrim (body.message.getD "") ≠ "")
    (hts : ∀ m ∈ conv.messages, m.ts < now) :
    ∀ ob, (chatStream true (some body) (some conv) settingPrompt now f primaryOk
        assistantText now2).sent = some ob →
      2 ≤ ob.messages.length ∧
      ob.messages[ob.messages.length - 1]? =
        some ⟨"user", .blocks (buildBlocks (jsTrim (body.message.getD ""))
          body.attachments)⟩ ∧
      ob.messages[ob.messages.length - 2]? =
        some ⟨"user", .str (jsTrim (body.message.getD ""))⟩ ∧
      (buildBlocks (jsTrim (body.message.getD "")) body.attachments).head? =
        some (.text (jsTrim (body.message.getD ""))) := by
  intro ob
  have hbeq : (jsTrim (body.message.getD "") == "") = false :=
    beq_eq_false_iff_ne.mpr huser
  simp only [chatStream, Option.getD_some, hid, Bool.not_true, Bool.false_eq_true,
    if_false, hbeq, Bool.false_and, bne, Bool.not_false, if_true]
  split
  · intro hsent
    exact Option.noConfusion hsent
  · rename_i conv2 hms
    have hkeep := maybeSummarize_keeps_last true _ conv2 conv.messages
      ⟨"user", jsTrim (body.message.getD ""), now⟩ now f rfl hts hms
    rcases hkeep with ⟨pre2, hpre2⟩
    cases primaryOk with
    | false =>
      intro hsent
      obtain rfl : _ = ob := Option.some.inj hsent
      simp only
      rw [hpre2]
      exact buildHistoryFull_duplicates pre2
        ⟨"user", jsTrim (body.message.getD ""), now⟩
        (jsTrim (body.message.getD "")) body.attachments rfl rfl huser
    | true =>
      intro hsent
      obtain rfl : _ = ob := Option.some.inj hsent
      simp only
      rw [hpre2]
      exact buildHistoryFull_duplicates pre2
        ⟨"user", jsTrim (body.message.getD ""), now⟩
        (jsTrim (body.message.getD "")) body.attachments rfl rfl huser

/-- A one-message conversation. -/
def convHi : Conversation := ⟨"T", "", 0, [⟨"user", "hi", 5⟩], 0, 0⟩

/-- A request typing "hello" into that conversation. -/
def reqHello : ChatRequest := ⟨some "c1", some "hello", none, none⟩

/-- What the handler sends for `reqHello` on `convHi`: the stored "hi",
the stored copy of "hello", and the fresh block-list copy of "hello". -/
def obHello : OutboundRequest :=
  ⟨"claude-sonnet-4-5", none,
    [⟨"user", .str "hi"⟩, ⟨"user", .str "hello"⟩,
      ⟨"user", .blocks [.text "hello"]⟩]⟩

/-- Witness for C10: on the concrete request the outbound array carries
"hello" twice, as its last two entries. -/
theorem chat_sends_user_turn_twice_witness :
    optTruthy reqHello.conversationId = true ∧
    jsTrim (reqHello.message.getD "") ≠ "" ∧
    (∀ m ∈ convHi.messages, m.ts < 10) ∧
    (chatStream true (some reqHello) (some convHi) "" 10 .netError true "ok"
        11).sent = some obHello ∧
    (2 ≤ obHello.messages.length ∧
      obHello.messages[obHello.messages.length - 1]? =
        some ⟨"user", .blocks (buildBlocks (jsTrim (reqHello.message.getD ""))
          reqHello.attachments)⟩ ∧
      obHello.messages[obHello.messages.length - 2]? =
        some ⟨"user", .str (jsTrim (reqHello.message.getD ""))⟩ ∧
      (buildBlocks (jsTrim (reqHello.message.getD ""))
          reqHello.attachments).head? =
        some (.text (jsTrim (reqHello.message.getD "")))) :=
  ⟨by decide, by decide, by decide, by decide,
    chat_sends_user_turn_twice reqHello convHi "" 10 .netError true "ok" 11
      (by decide) (by decide) (by decide) obHello (by decide)⟩
